import Mathlib

/-!
Shallow embedding of the `thahim/ani` client (src/index.tsx), which bundles
three browser flows: an image-edit flow, a destination-compositing flow, and a
video-generation flow. DOM state is modelled as explicit records, the event
handlers as pure state-transition functions, and the platform base64 data-URL
encoding as executable functions over byte lists.
-/

/-- A selected file: only the fields the code reads (`file.type`). -/
structure JSFile where
  fname : String
  mimeType : String
deriving DecidableEq, Repr

/-- `data:<mime>;base64,<payload>` string, as produced for `img.src` in the code. -/
def dataURIString (mimeType payload : String) : String :=
  "data:" ++ mimeType ++ ";base64," ++ payload

/-- An inline-data response part: `part.inlineData` with `data` and `mimeType`. -/
structure InlineData where
  data : String
  mimeType : String
deriving DecidableEq, Repr

/-- A response part: carries optional inline data and optional text. -/
structure RespPart where
  inlineData : Option InlineData
  text : Option String
deriving DecidableEq, Repr

/-- The loop `for (const part of parts) if (part.inlineData) ... break`:
returns the first part's inline data, if any part has one. -/
def findInlinePart : List RespPart → Option InlineData
  | [] => none
  | p :: rest =>
    match p.inlineData with
    | some d => some d
    | none => findInlinePart rest

/-- `response.candidates?.[0]?.content?.parts` may be absent (`if (parts)`);
an absent parts list behaves like one with no inline data. -/
def inlineOf (parts : Option (List RespPart)) : Option InlineData :=
  match parts with
  | none => none
  | some ps => findInlinePart ps

/-- Outcome of the awaited remote work inside the `try` block: either the
response arrived (`ok`), or something threw/rejected (`thrown`); a thrown
value that is an `Error` carries its message, a non-`Error` carries none. -/
inductive FetchOutcome where
  | ok (parts : Option (List RespPart))
  | thrown (message : Option String)
deriving DecidableEq, Repr

/-- `error instanceof Error ? error.message : "An unknown error occurred."` -/
def errMessageOf (m : Option String) : String :=
  m.getD "An unknown error occurred."

/-- The message of the error thrown when no inline-data part is found. -/
def noImageMsg : String :=
  "The AI did not return an image. The request may have been blocked or the model could not fulfill it. Please try a different image."

/-- JavaScript `String.prototype.trim()`: strip whitespace from both ends.
Defined by structural recursion over the character list so that concrete
inputs evaluate. -/
def jsTrim (s : String) : String :=
  ⟨((s.data.dropWhile Char.isWhitespace).reverse.dropWhile
      Char.isWhitespace).reverse⟩

namespace ImageEdit

/-- The contexts of the image-edit flow's radio group. -/
inductive Context where
  | clothes
  | celebrity
  | background
deriving DecidableEq, Repr

/-- The prompt switch in the apply-button click handler: `inputValue` is
`promptInput.value.trim()`, interpolated into a per-context template. -/
def promptTextOf (ctx : Context) (promptValue : String) : String :=
  let inputValue := jsTrim promptValue
  match ctx with
  | .clothes =>
    "Change the clothes of the person in the image to be: " ++ inputValue ++
      ". Ensure the result is a high-quality, realistic photo."
  | .celebrity =>
    "Add the celebrity \"" ++ inputValue ++
      "\" standing next to the person in this image. Do not change the original person. The result should be a high-quality, realistic photo."
  | .background =>
    "Change only the background of this image to: " ++ inputValue ++
      ". Do not change the person or their clothes. The result should be a high-quality, realistic photo."

/-- The DOM state the image-edit handlers read and write. `pendingWatermark`
models the `img.src` assignment whose `onload` callback has not yet run. -/
structure UIState where
  loaderVisible : Bool
  applyDisabled : Bool
  errorText : String
  errorVisible : Bool
  editedSrc : String
  editedVisible : Bool
  editedPlaceholderVisible : Bool
  downloadHref : Option String
  downloadVisible : Bool
  pendingWatermark : Option InlineData
deriving DecidableEq, Repr

/-- Page-load state: loader hidden, button disabled, placeholder shown. -/
def initialState : UIState :=
  { loaderVisible := false
    applyDisabled := true
    errorText := ""
    errorVisible := false
    editedSrc := ""
    editedVisible := false
    editedPlaceholderVisible := true
    downloadHref := none
    downloadVisible := false
    pendingWatermark := none }

/-- `updateButtonState`: `applyButton.disabled = !selectedFile || !isTextInputFilled`. -/
def updateButtonState (selectedFile : Option JSFile) (promptValue : String)
    (s : UIState) : UIState :=
  { s with applyDisabled := selectedFile.isNone || (jsTrim promptValue == "") }

/-- `updateUI(isLoading, error?)`: toggles the loader, disables the button while
loading (else recomputes it), and shows the error area only for a truthy
(non-empty) error string, hiding it otherwise. -/
def updateUI (selectedFile : Option JSFile) (promptValue : String)
    (isLoading : Bool) (error : Option String) (s : UIState) : UIState :=
  let s1 := { s with loaderVisible := isLoading }
  let s2 :=
    if isLoading then { s1 with applyDisabled := true }
    else updateButtonState selectedFile promptValue s1
  match error with
  | some e =>
    if e == "" then { s2 with errorVisible := false }
    else { s2 with errorText := "Error: " ++ e, errorVisible := true }
  | none => { s2 with errorVisible := false }

/-- The apply-button click handler, with the awaited remote work summarised by
`outcome` and the availability of the 2D canvas context by `ctxAvailable`.
When the context is available only `img.src` is set synchronously (the
`onload` callback runs later); when it is not, the raw edited image is shown
directly. The `catch` branch calls `updateUI(false, message)` and the
`finally` branch always calls `updateUI(false)`. -/
def clickHandler (selectedFile : Option JSFile) (promptValue : String)
    (ctxAvailable : Bool) (outcome : FetchOutcome) (s : UIState) : UIState :=
  match selectedFile with
  | none => updateUI none promptValue false (some "Please select an image first.") s
  | some _ =>
    let s1 := updateUI selectedFile promptValue true none s
    let s2 := { s1 with downloadVisible := false, editedSrc := "#",
                        editedVisible := false, editedPlaceholderVisible := true }
    match outcome with
    | .thrown m =>
      let s3 := updateUI selectedFile promptValue false (some (errMessageOf m)) s2
      updateUI selectedFile promptValue false none s3
    | .ok parts =>
      match inlineOf parts with
      | some d =>
        let s3 :=
          if ctxAvailable then
            { s2 with pendingWatermark := some d }
          else
            { s2 with editedSrc := dataURIString d.mimeType d.data,
                      editedVisible := true, editedPlaceholderVisible := false }
        updateUI selectedFile promptValue false none s3
      | none =>
        let s3 := updateUI selectedFile promptValue false (some noImageMsg) s2
        updateUI selectedFile promptValue false none s3

end ImageEdit

namespace Destination

/-- `(document.querySelector(checked radio))?.value` with the default `Kaaba`
applied by `||`: an absent checked radio (and a falsy empty value) gives the
default destination `Kaaba`. -/
def selectedDestination (checked : Option String) : String :=
  match checked with
  | none => "Kaaba"
  | some v => if v == "" then "Kaaba" else v

/-- The destination flow's prompt: a template over the destination choice only;
the flow has no free-text prompt field. -/
def promptText (dest : String) : String :=
  "Take the person in the image and place them in front of the " ++ dest ++
    " in Saudi Arabia. The person should be wearing Ihram (ehram)."

/-- The destination flow's DOM state (no prompt field, no watermark canvas). -/
structure UIState where
  loaderVisible : Bool
  applyDisabled : Bool
  errorText : String
  errorVisible : Bool
  editedSrc : String
  editedVisible : Bool
  editedPlaceholderVisible : Bool
  downloadHref : Option String
  downloadVisible : Bool
deriving DecidableEq, Repr

/-- `updateButtonState`: `applyButton.disabled = !selectedFile`. -/
def updateButtonState (selectedFile : Option JSFile) (s : UIState) : UIState :=
  { s with applyDisabled := selectedFile.isNone }

/-- `updateUI(isLoading, error?)` of the destination flow: identical to the
image-edit flow's except for the button-state rule. -/
def updateUI (selectedFile : Option JSFile) (isLoading : Bool)
    (error : Option String) (s : UIState) : UIState :=
  let s1 := { s with loaderVisible := isLoading }
  let s2 :=
    if isLoading then { s1 with applyDisabled := true }
    else updateButtonState selectedFile s1
  match error with
  | some e =>
    if e == "" then { s2 with errorVisible := false }
    else { s2 with errorText := "Error: " ++ e, errorVisible := true }
  | none => { s2 with errorVisible := false }

end Destination

namespace VideoGen

/-- The fixed cycling loader messages. -/
def loadingMessages : List String :=
  [ "Warming up the animation engine..."
  , "Teaching the pixels to dance..."
  , "Composing a visual symphony..."
  , "Rendering your masterpiece..."
  , "Adding a touch of magic..."
  , "Almost there, just polishing the frames..." ]

/-- The video flow's DOM state; `alerts` records `alert(...)` calls in order. -/
structure UIState where
  loaderVisible : Bool
  loaderMessage : String
  animateDisabled : Bool
  resultVisible : Bool
  resultVideoSrc : String
  downloadHref : Option String
  alerts : List String
deriving DecidableEq, Repr

/-- Page-load state of the video flow. -/
def initialState : UIState :=
  { loaderVisible := false
    loaderMessage := ""
    animateDisabled := true
    resultVisible := false
    resultVideoSrc := ""
    downloadHref := none
    alerts := [] }

/-- `updateAnimateButtonState`: disabled unless an image is present and the
trimmed prompt is non-empty (`trim().length > 0`). -/
def updateAnimateButtonState (imageFile : Option JSFile) (promptValue : String)
    (s : UIState) : UIState :=
  { s with animateDisabled :=
      !(imageFile.isSome && decide (0 < (jsTrim promptValue).length)) }

/-- `showLoader`: shows the loader and sets the first cycling message. It does
not touch the animate button. -/
def showLoader (s : UIState) : UIState :=
  { s with loaderVisible := true, loaderMessage := loadingMessages.getD 0 "" }

/-- `hideLoader`: hides the loader and stops the message cycling. -/
def hideLoader (s : UIState) : UIState :=
  { s with loaderVisible := false }

/-- The fixed poll delay passed to `setTimeout` in the poll loop, in ms. -/
def pollDelayMs : Nat := 10000

/-- Counters of the poll loop `while (!operation.done) { await delay; poll }`:
`polls` counts `getVideosOperation` calls, `delays` counts elapsed 10s waits,
`finished` is set once the loop observes a done operation. -/
structure PollState where
  polls : Nat
  delays : Nat
  finished : Bool
deriving DecidableEq, Repr

/-- Loop entry: no polls made, no delays elapsed, loop running. -/
def initPoll : PollState := { polls := 0, delays := 0, finished := false }

/-- One iteration of the poll loop against the trace `done`, where `done k` is
the done flag of the operation held after `k` polls (`done 0` is the initial
operation's). If the current operation is not done, one delay elapses and one
poll is made; otherwise the loop finishes. -/
def pollStep (done : Nat → Bool) (s : PollState) : PollState :=
  if s.finished then s
  else if done s.polls then { s with finished := true }
  else { polls := s.polls + 1, delays := s.delays + 1, finished := false }

/-- Message of the error thrown when the completed operation has no video URI. -/
def noUriMsg : String := "Video generation failed or returned no URI."

/-- Message of the error thrown when fetching the video bytes fails. -/
def fetchFailMsg (statusText : String) : String :=
  "Failed to fetch video: " ++ statusText

/-- Tail of `animateImage` after the poll loop has observed `done`: reads
`operation.response?.generatedVideos?.[0]?.video?.uri`; a missing URI throws
`noUriMsg`, a failed fetch throws `fetchFailMsg`; the `catch` alerts, the
`finally` hides the loader. -/
def animateResult (uri : Option String) (fetchOk : Bool) (statusText : String)
    (videoUrl : String) (s : UIState) : UIState :=
  let s1 := showLoader s
  let s2 := { s1 with resultVisible := false }
  match uri with
  | none =>
    hideLoader { s2 with alerts := s2.alerts ++
      ["An error occurred during animation: " ++ noUriMsg] }
  | some _ =>
    if fetchOk then
      hideLoader { s2 with resultVideoSrc := videoUrl,
                           downloadHref := some videoUrl, resultVisible := true }
    else
      hideLoader { s2 with alerts := s2.alerts ++
        ["An error occurred during animation: " ++ fetchFailMsg statusText] }

end VideoGen

namespace B64

/-- The base64 alphabet used by `btoa`-style data-URL encoding. -/
def b64Alphabet : List Char :=
  "ABCDEFGHIJKLMNOPQRSTUVWXYZabcdefghijklmnopqrstuvwxyz0123456789+/".toList

/-- The character encoding a 6-bit group. -/
def encChar (n : Nat) : Char := b64Alphabet.getD n '?'

/-- The 6-bit group encoded by a character, if it is in the alphabet. -/
def decChar (c : Char) : Option Nat := b64Alphabet.indexOf? c

/-- Base64 encoding of a byte list, three bytes to four characters, the last
one or two bytes padded with `=`. This models the payload part of the
`data:<mime>;base64,<payload>` string produced by `FileReader.readAsDataURL`. -/
def b64encode : List Nat → List Char
  | [] => []
  | [b1] => [encChar (b1 / 4), encChar (b1 % 4 * 16), '=', '=']
  | [b1, b2] => [encChar (b1 / 4), encChar (b1 % 4 * 16 + b2 / 16),
                 encChar (b2 % 16 * 4), '=']
  | b1 :: b2 :: b3 :: rest =>
    encChar (b1 / 4) :: encChar (b1 % 4 * 16 + b2 / 16) ::
      encChar (b2 % 16 * 4 + b3 / 64) :: encChar (b3 % 64) :: b64encode rest

/-- Base64 decoding: four characters back to three bytes, with `=`-padding
giving one or two trailing bytes. -/
def b64decode : List Char → Option (List Nat)
  | [] => some []
  | c1 :: c2 :: c3 :: c4 :: rest =>
    match decChar c1, decChar c2 with
    | some s1, some s2 =>
      if c3 = '=' ∧ c4 = '=' ∧ rest = [] then
        some [s1 * 4 + s2 / 16]
      else
        match decChar c3 with
        | some s3 =>
          if c4 = '=' ∧ rest = [] then
            some [s1 * 4 + s2 / 16, s2 % 16 * 16 + s3 / 4]
          else
            match decChar c4, b64decode rest with
            | some s4, some bs =>
              some ((s1 * 4 + s2 / 16) :: (s2 % 16 * 16 + s3 / 4) ::
                    (s3 % 4 * 64 + s4) :: bs)
            | _, _ => none
        | none => none
    | _, _ => none
  | _ => none

theorem dec_enc : ∀ n < 64, decChar (encChar n) = some n := by decide

theorem encChar_ne_eq (n : Nat) : encChar n ≠ '=' := by
  by_cases h : n < 64
  · revert n h
    decide
  · unfold encChar
    rw [List.getD_eq_default]
    · decide
    · simp [b64Alphabet]
      omega

theorem encChar_ne_comma (n : Nat) : encChar n ≠ ',' := by
  by_cases h : n < 64
  · revert n h
    decide
  · unfold encChar
    rw [List.getD_eq_default]
    · decide
    · simp [b64Alphabet]
      omega

/-- Decoding inverts encoding on byte lists. -/
theorem b64_roundtrip : ∀ l : List Nat, (∀ b ∈ l, b < 256) →
    b64decode (b64encode l) = some l := by
  intro l
  induction l using b64encode.induct with
  | case1 => intro _; rfl
  | case2 b1 =>
    intro h
    have hb1 : b1 < 256 := h b1 (by simp)
    have d1 := dec_enc (b1 / 4) (by omega)
    have d2 := dec_enc (b1 % 4 * 16) (by omega)
    simp [b64encode, b64decode, d1, d2]
    omega
  | case3 b1 b2 =>
    intro h
    have hb1 : b1 < 256 := h b1 (by simp)
    have hb2 : b2 < 256 := h b2 (by simp)
    have d1 := dec_enc (b1 / 4) (by omega)
    have d2 := dec_enc (b1 % 4 * 16 + b2 / 16) (by omega)
    have d3 := dec_enc (b2 % 16 * 4) (by omega)
    simp [b64encode, b64decode, d1, d2, d3, encChar_ne_eq]
    omega
  | case4 b1 b2 b3 rest ih =>
    intro h
    have hb1 : b1 < 256 := h b1 (by simp)
    have hb2 : b2 < 256 := h b2 (by simp)
    have hb3 : b3 < 256 := h b3 (by simp)
    have hrest := ih (fun b hb => h b (by simp [hb]))
    have d1 := dec_enc (b1 / 4) (by omega)
    have d2 := dec_enc (b1 % 4 * 16 + b2 / 16) (by omega)
    have d3 := dec_enc (b2 % 16 * 4 + b3 / 64) (by omega)
    have d4 := dec_enc (b3 % 64) (by omega)
    simp [b64encode, b64decode, d1, d2, d3, d4, hrest, encChar_ne_eq]
    omega

/-- JavaScript `String.prototype.split(sep)` over character lists. -/
def splitOnChar (sep : Char) : List Char → List (List Char)
  | [] => [[]]
  | c :: rest =>
    if c = sep then [] :: splitOnChar sep rest
    else
      match splitOnChar sep rest with
      | [] => [[c]]
      | h :: t => (c :: h) :: t

theorem splitOnChar_no_sep (sep : Char) (l : List Char) (h : sep ∉ l) :
    splitOnChar sep l = [l] := by
  induction l with
  | nil => rfl
  | cons c rest ih =>
    simp only [List.mem_cons, not_or] at h
    have hne : c ≠ sep := fun hc => h.1 hc.symm
    simp only [splitOnChar, if_neg hne, ih h.2]

theorem splitOnChar_append (sep : Char) (a b : List Char) (ha : sep ∉ a) :
    splitOnChar sep (a ++ sep :: b) = a :: splitOnChar sep b := by
  induction a with
  | nil => simp [splitOnChar]
  | cons c rest ih =>
    simp only [List.mem_cons, not_or] at ha
    have hne : c ≠ sep := fun hc => ha.1 hc.symm
    simp only [List.cons_append, splitOnChar, if_neg hne, List.append_eq, ih ha.2]

/-- `FileReader.readAsDataURL` output for a file with the given MIME type and
bytes: `data:<mime>;base64,<payload>`. -/
def dataURLChars (mime : List Char) (bytes : List Nat) : List Char :=
  "data:".toList ++ mime ++ ";base64,".toList ++ b64encode bytes

/-- `fileToBase64`: `(reader.result as string).split(',')[1]`, the code's
stripping of the data-URI prefix (`[1]` modelled as `getD 1 []`). -/
def fileToBase64 (mime : List Char) (bytes : List Nat) : List Char :=
  (splitOnChar ',' (dataURLChars mime bytes)).getD 1 []

theorem comma_not_mem_encode (l : List Nat) : ',' ∉ b64encode l := by
  induction l using b64encode.induct with
  | case1 => simp [b64encode]
  | case2 b1 =>
    simp [b64encode, encChar_ne_comma]
    constructor <;> exact fun hc => encChar_ne_comma _ hc.symm
  | case3 b1 b2 =>
    simp [b64encode]
    refine ⟨?_, ?_, ?_⟩ <;> exact fun hc => encChar_ne_comma _ hc.symm
  | case4 b1 b2 b3 rest ih =>
    simp [b64encode, ih]
    refine ⟨?_, ?_, ?_, ?_⟩ <;> exact fun hc => encChar_ne_comma _ hc.symm

/-- The split really returns the bare payload, for any comma-free MIME type. -/
theorem fileToBase64_eq (mime : List Char) (bytes : List Nat)
    (hm : ',' ∉ mime) : fileToBase64 mime bytes = b64encode bytes := by
  have hsplit : dataURLChars mime bytes =
      ("data:".toList ++ mime ++ ";base64".toList) ++ ',' :: b64encode bytes := by
    simp [dataURLChars]
  have hpre : ',' ∉ ("data:".toList ++ mime ++ ";base64".toList) := by
    intro hmem
    rcases List.mem_append.mp hmem with hmem2 | h
    · rcases List.mem_append.mp hmem2 with h | h
      · revert h; decide
      · exact hm h
    · revert h; decide
  unfold fileToBase64
  rw [hsplit, splitOnChar_append _ _ _ hpre,
      splitOnChar_no_sep _ _ (comma_not_mem_encode bytes)]
  rfl

end B64

namespace Watermark

/-- The diagonal hatch pass: stroke style, line width and step are the fixed
constants; `startXs` are the `i` values of `moveTo(i, 0)`/`lineTo(i + h, h)`. -/
structure HatchSpec where
  strokeStyle : String
  lineWidth : ℚ
  step : ℤ
  startXs : List ℤ
deriving DecidableEq, Repr

/-- The rotated circular stamp pass; `rotationPi` is the rotation angle as a
multiple of pi (the code rotates by `-Math.PI / 12`, i.e. -15 degrees). -/
structure StampSpec where
  centerX : ℚ
  centerY : ℚ
  radius : ℚ
  rotationPi : ℚ
  color : String
  lineWidth : ℚ
  fontSizePx : ℚ
  text : String
deriving DecidableEq, Repr

/-- The watermark canvas after the `img.onload` drawing completed. -/
structure CanvasModel where
  width : Nat
  height : Nat
  baseImage : String
  hatch : HatchSpec
  stamp : StampSpec
deriving DecidableEq, Repr

/-- `for (let i = -canvas.height; i < canvas.width; i += step)` with
`step = 40`: the successive `i` values. -/
def hatchLoop (w i : ℤ) : List ℤ :=
  if i < w then i :: hatchLoop w (i + 40) else []
termination_by (w - i).toNat
decreasing_by omega

/-- The canvas content drawn by the `img.onload` callback for an image of
`w × h` pixels whose element source is `base`: the image at the origin, the
hatch lines, and the `PAIDZ` stamp with radius `min(w, h) / 4`. -/
def canvasFinal (w h : Nat) (base : String) : CanvasModel :=
  let radius : ℚ := (min w h : ℚ) / 4
  { width := w
    height := h
    baseImage := base
    hatch :=
      { strokeStyle := "rgba(80, 80, 80, 0.6)"
        lineWidth := 4
        step := 40
        startXs := hatchLoop (w : ℤ) (-(h : ℤ)) }
    stamp :=
      { centerX := (w : ℚ) / 2
        centerY := (h : ℚ) / 2
        radius := radius
        rotationPi := -1 / 12
        color := "rgba(211, 47, 47, 0.75)"
        lineWidth := radius / 12
        fontSizePx := radius / (3 / 2)
        text := "PAIDZ" } }

/-- The tail of `img.onload`: re-encode the canvas via `toDataURL(mimeType)`
(the platform encoder is the opaque deterministic function `enc`) and assign
the result to the edited-image element and the download link. -/
def watermarkOnload (enc : String → CanvasModel → String) (w h : Nat)
    (mimeType data : String) (s : ImageEdit.UIState) : ImageEdit.UIState :=
  let finalImageDataUrl := enc mimeType (canvasFinal w h (dataURIString mimeType data))
  { s with editedSrc := finalImageDataUrl
           editedVisible := true
           editedPlaceholderVisible := false
           downloadHref := some finalImageDataUrl
           downloadVisible := true }

end Watermark

section Helpers

/-- A three-part concatenation with a non-empty first part is non-empty. -/
theorem str_cat3_ne_empty (a x b : String) (h : 0 < a.length) :
    a ++ x ++ b ≠ "" := by
  intro e
  have hl : (a ++ x ++ b).length = ("" : String).length := congrArg String.length e
  rw [String.length_append, String.length_append] at hl
  have h0 : ("" : String).length = 0 := rfl
  omega

/-- The no-URI error message never coincides with a fetch-failure message:
their first characters differ for every status text. -/
theorem noUri_ne_fetchFail (st : String) :
    VideoGen.noUriMsg ≠ VideoGen.fetchFailMsg st := by
  intro h
  have hd := congrArg String.data h
  rw [show VideoGen.noUriMsg.data =
        'V' :: "ideo generation failed or returned no URI.".data from rfl] at hd
  have h2 : (VideoGen.fetchFailMsg st).data =
      'F' :: ("ailed to fetch video: ".data ++ st.data) := by
    show ("Failed to fetch video: " ++ st).data = _
    rw [String.data_append]
    rfl
  rw [h2] at hd
  injection hd with hh _
  exact absurd hh (by decide)

/-- A trimmed prompt is non-empty exactly when its length is positive. -/
theorem str_pos_iff_ne_empty (v : String) : 0 < v.length ↔ v ≠ "" := by
  rw [Nat.pos_iff_ne_zero]
  constructor
  · intro h hc
    simp [hc] at h
  · intro h hc
    exact h (String.ext (List.length_eq_zero.mp hc))

end Helpers

/-- C2: in the video-generation flow, if the operation's done flag is never
set, the poll loop never terminates: each iteration waits the fixed
10-second delay (`pollDelayMs = 10000`) and makes exactly one status poll,
so after `n` intervals exactly `n` polls have been made and the loop is
still running, for every `n`. -/
theorem claim_C2_poll_loop_no_timeout (done : Nat → Bool)
    (h : ∀ k, done k = false) :
    VideoGen.pollDelayMs = 10000 ∧
    ∀ n, (VideoGen.pollStep done)^[n] VideoGen.initPoll =
      { polls := n, delays := n, finished := false } := by
  refine ⟨rfl, ?_⟩
  intro n
  induction n with
  | zero => rfl
  | succ n ih =>
    rw [Function.iterate_succ_apply', ih]
    simp [VideoGen.pollStep, h]

/-- Witness for C2: with a trace that never reports done, five intervals give
exactly five polls and a still-running loop. -/
theorem claim_C2_witness :
    (VideoGen.pollStep (fun _ => false))^[5] VideoGen.initPoll =
      { polls := 5, delays := 5, finished := false } :=
  (claim_C2_poll_loop_no_timeout (fun _ => false) (fun _ => rfl)).2 5

/-- C4: for every context the prompt builder returns a non-empty string; for
the three free-text contexts the result contains the trimmed user text
verbatim; the destination context's prompt is the fixed template (shown here
instantiated at the default destination), built without any free text. -/
theorem claim_C4_prompt_builder (v : String) :
    (∀ ctx : ImageEdit.Context, ImageEdit.promptTextOf ctx v ≠ "" ∧
      ∃ pre post, ImageEdit.promptTextOf ctx v = pre ++ jsTrim v ++ post) ∧
    (∀ d, Destination.promptText d ≠ "") ∧
    Destination.promptText (Destination.selectedDestination none) =
      "Take the person in the image and place them in front of the Kaaba in Saudi Arabia. The person should be wearing Ihram (ehram)." := by
  refine ⟨?_, ?_, rfl⟩
  · intro ctx
    cases ctx with
    | clothes =>
      exact ⟨str_cat3_ne_empty _ _ _ (by decide),
        "Change the clothes of the person in the image to be: ",
        ". Ensure the result is a high-quality, realistic photo.", rfl⟩
    | celebrity =>
      exact ⟨str_cat3_ne_empty _ _ _ (by decide),
        "Add the celebrity \"",
        "\" standing next to the person in this image. Do not change the original person. The result should be a high-quality, realistic photo.",
        rfl⟩
    | background =>
      exact ⟨str_cat3_ne_empty _ _ _ (by decide),
        "Change only the background of this image to: ",
        ". Do not change the person or their clothes. The result should be a high-quality, realistic photo.",
        rfl⟩
  · intro d
    exact str_cat3_ne_empty _ _ _ (by decide)

/-- C5: for a file whose read succeeds with a data URI, `fileToBase64`
resolves with the bare base64 payload (the data-URI prefix stripped), and
decoding that payload returns the original bytes. -/
theorem claim_C5_fileToBase64_roundtrip (mime : List Char) (bytes : List Nat)
    (hm : ',' ∉ mime) (hb : ∀ b ∈ bytes, b < 256) :
    B64.fileToBase64 mime bytes = B64.b64encode bytes ∧
    B64.b64decode (B64.b64encode bytes) = some bytes :=
  ⟨B64.fileToBase64_eq mime bytes hm, B64.b64_roundtrip bytes hb⟩

/-- Witness for C5 at a concrete PNG header fragment. -/
theorem claim_C5_witness :
    B64.fileToBase64 "image/png".toList [137, 80, 78, 71] =
      B64.b64encode [137, 80, 78, 71] ∧
    B64.b64decode (B64.b64encode [137, 80, 78, 71]) = some [137, 80, 78, 71] :=
  claim_C5_fileToBase64_roundtrip "image/png".toList [137, 80, 78, 71]
    (by decide) (by decide)

/-- C7: at idle, each flow's trigger is disabled when no file is selected and
enabled exactly when a file is present and, where the flow requires free text
(image edit and video), the trimmed prompt is non-empty; the destination flow
needs only the file. -/
theorem claim_C7_trigger_enable_conditions (file : Option JSFile) (v : String)
    (s1 : ImageEdit.UIState) (s2 : Destination.UIState) (s3 : VideoGen.UIState) :
    ((ImageEdit.updateButtonState file v s1).applyDisabled = false ↔
      file.isSome = true ∧ jsTrim v ≠ "") ∧
    ((Destination.updateButtonState file s2).applyDisabled = false ↔
      file.isSome = true) ∧
    ((VideoGen.updateAnimateButtonState file v s3).animateDisabled = false ↔
      file.isSome = true ∧ jsTrim v ≠ "") := by
  refine ⟨?_, ?_, ?_⟩
  · cases file <;>
      simp [ImageEdit.updateButtonState]
  · cases file <;>
      simp [Destination.updateButtonState]
  · cases file <;>
      simp [VideoGen.updateAnimateButtonState, str_pos_iff_ne_empty]

/-- C9: with no destination radio checked, the destination defaults to
`Kaaba` and the prompt is the well-formed fixed template. -/
theorem claim_C9_default_destination :
    Destination.selectedDestination none = "Kaaba" ∧
    Destination.promptText (Destination.selectedDestination none) =
      "Take the person in the image and place them in front of the Kaaba in Saudi Arabia. The person should be wearing Ihram (ehram)." ∧
    Destination.promptText (Destination.selectedDestination none) ≠ "" :=
  ⟨rfl, rfl, str_cat3_ne_empty _ _ _ (by decide)⟩

/-- C1 (code bug): when the remote call rejects, the `catch` step does display
the human-readable message, but the unconditional `updateUI(false)` in the
`finally` step then hides the error area again (its `else` branch sets the
error display to `none`). After the handler completes the UI is idle and
re-submittable, yet the error area is hidden — only the stale text remains
set. Evaluated at a concrete failing action. -/
theorem claim_C1_finally_hides_error :
    (ImageEdit.updateUI (some ⟨"photo.png", "image/png"⟩) "red dress" false
        (some "network down") ImageEdit.initialState).errorVisible = true ∧
    (ImageEdit.clickHandler (some ⟨"photo.png", "image/png"⟩) "red dress" true
        (.thrown (some "network down")) ImageEdit.initialState).errorText =
      "Error: network down" ∧
    (ImageEdit.clickHandler (some ⟨"photo.png", "image/png"⟩) "red dress" true
        (.thrown (some "network down")) ImageEdit.initialState).errorVisible =
      false ∧
    (ImageEdit.clickHandler (some ⟨"photo.png", "image/png"⟩) "red dress" true
        (.thrown (some "network down")) ImageEdit.initialState).loaderVisible =
      false ∧
    (ImageEdit.clickHandler (some ⟨"photo.png", "image/png"⟩) "red dress" true
        (.thrown (some "network down")) ImageEdit.initialState).applyDisabled =
      false := by
  refine ⟨rfl, rfl, rfl, rfl, rfl⟩

/-- C3 counterexample: in the video-generation flow a request can be
outstanding (loader shown by `showLoader`) while the animate button is still
enabled — `showLoader` and `animateImage` never disable it. -/
theorem claim_C3_counterexample :
    (VideoGen.showLoader (VideoGen.updateAnimateButtonState
        (some ⟨"photo.png", "image/png"⟩) "make it dance"
        VideoGen.initialState)).loaderVisible = true ∧
    (VideoGen.showLoader (VideoGen.updateAnimateButtonState
        (some ⟨"photo.png", "image/png"⟩) "make it dance"
        VideoGen.initialState)).animateDisabled = false := by
  refine ⟨rfl, rfl⟩

/-- C3 amended: in the image-edit and destination flows `updateUI(true)`
disables the trigger for the duration of the request (it is re-enabled only
by the non-loading `updateUI` of the cleanup step); in the video flow
`showLoader` shows the busy loader but leaves the trigger's disabled state
unchanged, so that flow does not disable its trigger during a request. -/
theorem claim_C3_trigger_disable_per_flow (file : Option JSFile) (v : String)
    (s1 : ImageEdit.UIState) (s2 : Destination.UIState) (s3 : VideoGen.UIState) :
    ((ImageEdit.updateUI file v true none s1).applyDisabled = true ∧
      (ImageEdit.updateUI file v true none s1).loaderVisible = true) ∧
    ((Destination.updateUI file true none s2).applyDisabled = true ∧
      (Destination.updateUI file true none s2).loaderVisible = true) ∧
    ((VideoGen.showLoader s3).animateDisabled = s3.animateDisabled ∧
      (VideoGen.showLoader s3).loaderVisible = true) := by
  refine ⟨⟨rfl, rfl⟩, ⟨rfl, rfl⟩, ⟨rfl, rfl⟩⟩

/-- C6: a successful response with no usable media fails with its own explicit
message, distinct from the generic failure surface, and leaves the result
view in its placeholder state. Image flow: no inline-data part records the
specific no-image message (distinct from the generic unknown-error message)
and keeps the edited view hidden behind its placeholder. Video flow: a
completed operation without a video URI alerts with the no-URI message
(distinct from every fetch-failure message) and keeps the result container
hidden. -/
theorem claim_C6_no_media_distinct_error (parts : Option (List RespPart))
    (hp : inlineOf parts = none) (file : JSFile) (v : String)
    (s : ImageEdit.UIState) (fetchOk : Bool) (st videoUrl : String)
    (vs : VideoGen.UIState) :
    ((ImageEdit.clickHandler (some file) v true (.ok parts) s).errorText =
        "Error: " ++ noImageMsg ∧
      noImageMsg ≠ errMessageOf none ∧
      (ImageEdit.clickHandler (some file) v true (.ok parts) s).editedVisible =
        false ∧
      (ImageEdit.clickHandler (some file) v true (.ok parts) s).editedPlaceholderVisible =
        true ∧
      (ImageEdit.clickHandler (some file) v true (.ok parts) s).editedSrc = "#" ∧
      (ImageEdit.clickHandler (some file) v true (.ok parts) s).downloadVisible =
        false) ∧
    ((VideoGen.animateResult none fetchOk st videoUrl vs).alerts =
        vs.alerts ++ ["An error occurred during animation: " ++ VideoGen.noUriMsg] ∧
      (VideoGen.animateResult none fetchOk st videoUrl vs).resultVisible = false ∧
      (VideoGen.animateResult none fetchOk st videoUrl vs).loaderVisible = false ∧
      ∀ st2, VideoGen.noUriMsg ≠ VideoGen.fetchFailMsg st2) := by
  constructor
  · have hmsg : (noImageMsg == "") = false := by decide
    refine ⟨?_, by decide, ?_, ?_, ?_, ?_⟩ <;>
      simp [ImageEdit.clickHandler, hp, ImageEdit.updateUI,
        ImageEdit.updateButtonState, hmsg]
  · refine ⟨rfl, rfl, rfl, noUri_ne_fetchFail⟩

/-- Witness for C6 at a concrete text-only response. -/
theorem claim_C6_witness :
    ((ImageEdit.clickHandler (some ⟨"photo.png", "image/png"⟩) "red dress" true
        (.ok (some [⟨none, some "model reply without media"⟩]))
        ImageEdit.initialState).errorText = "Error: " ++ noImageMsg ∧
      noImageMsg ≠ errMessageOf none ∧
      (ImageEdit.clickHandler (some ⟨"photo.png", "image/png"⟩) "red dress" true
        (.ok (some [⟨none, some "model reply without media"⟩]))
        ImageEdit.initialState).editedVisible = false ∧
      (ImageEdit.clickHandler (some ⟨"photo.png", "image/png"⟩) "red dress" true
        (.ok (some [⟨none, some "model reply without media"⟩]))
        ImageEdit.initialState).editedPlaceholderVisible = true ∧
      (ImageEdit.clickHandler (some ⟨"photo.png", "image/png"⟩) "red dress" true
        (.ok (some [⟨none, some "model reply without media"⟩]))
        ImageEdit.initialState).editedSrc = "#" ∧
      (ImageEdit.clickHandler (some ⟨"photo.png", "image/png"⟩) "red dress" true
        (.ok (some [⟨none, some "model reply without media"⟩]))
        ImageEdit.initialState).downloadVisible = false) ∧
    ((VideoGen.animateResult none true "OK" "blob:demo"
        VideoGen.initialState).alerts =
        VideoGen.initialState.alerts ++
          ["An error occurred during animation: " ++ VideoGen.noUriMsg] ∧
      (VideoGen.animateResult none true "OK" "blob:demo"
        VideoGen.initialState).resultVisible = false ∧
      (VideoGen.animateResult none true "OK" "blob:demo"
        VideoGen.initialState).loaderVisible = false ∧
      ∀ st2, VideoGen.noUriMsg ≠ VideoGen.fetchFailMsg st2) :=
  claim_C6_no_media_distinct_error (some [⟨none, some "model reply without media"⟩]) rfl
    ⟨"photo.png", "image/png"⟩ "red dress" ImageEdit.initialState true "OK"
    "blob:demo" VideoGen.initialState

/-- A concrete stand-in for the platform `toDataURL` encoder, used to
instantiate theorems quantified over the encoder. -/
def stubEncoder : String → Watermark.CanvasModel → String :=
  fun mimeType c => dataURIString mimeType (toString c.width ++ "x" ++ toString c.height)

/-- C8: the watermark canvas adopts the source image's pixel dimensions, uses
the fixed geometry (stamp radius `min(w, h) / 4`, rotation `-pi / 12` i.e.
-15 degrees, centre at the image centre, fixed colour/alpha constants), and —
the compositing being a pure function of the source image and any fixed
deterministic encoder — the same source yields the same data URI, which is
assigned to both the display element and the download link. -/
theorem claim_C8_watermark_geometry (enc : String → Watermark.CanvasModel → String)
    (w h : Nat) (mimeType data : String) (s : ImageEdit.UIState) :
    (Watermark.canvasFinal w h (dataURIString mimeType data)).width = w ∧
    (Watermark.canvasFinal w h (dataURIString mimeType data)).height = h ∧
    (Watermark.canvasFinal w h (dataURIString mimeType data)).stamp.radius =
      (min w h : ℚ) / 4 ∧
    (Watermark.canvasFinal w h (dataURIString mimeType data)).stamp.rotationPi =
      -1 / 12 ∧
    (Watermark.canvasFinal w h (dataURIString mimeType data)).stamp.centerX =
      (w : ℚ) / 2 ∧
    (Watermark.canvasFinal w h (dataURIString mimeType data)).stamp.centerY =
      (h : ℚ) / 2 ∧
    (Watermark.canvasFinal w h (dataURIString mimeType data)).stamp.color =
      "rgba(211, 47, 47, 0.75)" ∧
    (Watermark.canvasFinal w h (dataURIString mimeType data)).stamp.text =
      "PAIDZ" ∧
    (Watermark.canvasFinal w h (dataURIString mimeType data)).hatch.strokeStyle =
      "rgba(80, 80, 80, 0.6)" ∧
    (Watermark.watermarkOnload enc w h mimeType data s).downloadHref =
      some (Watermark.watermarkOnload enc w h mimeType data s).editedSrc ∧
    (Watermark.watermarkOnload enc w h mimeType data s).editedVisible = true ∧
    (Watermark.watermarkOnload enc w h mimeType data s).editedPlaceholderVisible =
      false ∧
    ∀ data2, data = data2 →
      Watermark.watermarkOnload enc w h mimeType data s =
        Watermark.watermarkOnload enc w h mimeType data2 s := by
  refine ⟨rfl, rfl, rfl, rfl, rfl, rfl, rfl, rfl, rfl, rfl, rfl, rfl, ?_⟩
  intro data2 hdd
  rw [hdd]

/-- Witness for C8 at a concrete 800 by 600 image and the stub encoder. -/
theorem claim_C8_witness :
    (Watermark.canvasFinal 800 600 (dataURIString "image/png" "QUJD")).width = 800 ∧
    (Watermark.canvasFinal 800 600 (dataURIString "image/png" "QUJD")).height = 600 ∧
    (Watermark.canvasFinal 800 600 (dataURIString "image/png" "QUJD")).stamp.radius =
      (min 800 600 : ℚ) / 4 ∧
    (Watermark.canvasFinal 800 600 (dataURIString "image/png" "QUJD")).stamp.rotationPi =
      -1 / 12 ∧
    (Watermark.canvasFinal 800 600 (dataURIString "image/png" "QUJD")).stamp.centerX =
      (800 : ℚ) / 2 ∧
    (Watermark.canvasFinal 800 600 (dataURIString "image/png" "QUJD")).stamp.centerY =
      (600 : ℚ) / 2 ∧
    (Watermark.canvasFinal 800 600 (dataURIString "image/png" "QUJD")).stamp.color =
      "rgba(211, 47, 47, 0.75)" ∧
    (Watermark.canvasFinal 800 600 (dataURIString "image/png" "QUJD")).stamp.text =
      "PAIDZ" ∧
    (Watermark.canvasFinal 800 600 (dataURIString "image/png" "QUJD")).hatch.strokeStyle =
      "rgba(80, 80, 80, 0.6)" ∧
    (Watermark.watermarkOnload stubEncoder 800 600 "image/png" "QUJD"
        ImageEdit.initialState).downloadHref =
      some (Watermark.watermarkOnload stubEncoder 800 600 "image/png" "QUJD"
        ImageEdit.initialState).editedSrc ∧
    (Watermark.watermarkOnload stubEncoder 800 600 "image/png" "QUJD"
        ImageEdit.initialState).editedVisible = true ∧
    (Watermark.watermarkOnload stubEncoder 800 600 "image/png" "QUJD"
        ImageEdit.initialState).editedPlaceholderVisible = false ∧
    ∀ data2, "QUJD" = data2 →
      Watermark.watermarkOnload stubEncoder 800 600 "image/png" "QUJD"
          ImageEdit.initialState =
        Watermark.watermarkOnload stubEncoder 800 600 "image/png" data2
          ImageEdit.initialState :=
  claim_C8_watermark_geometry stubEncoder 800 600 "image/png" "QUJD"
    ImageEdit.initialState

/-- C10: when the 2D canvas context is unavailable, the handler's fallback
shows the edited image returned by the API unwatermarked (the raw data URI
replaces the placeholder) while the download link stays hidden and is never
assigned for that result. -/
theorem claim_C10_canvas_fallback (file : JSFile) (v : String)
    (parts : Option (List RespPart)) (d : InlineData)
    (hp : inlineOf parts = some d) (s : ImageEdit.UIState) :
    (ImageEdit.clickHandler (some file) v false (.ok parts) s).editedSrc =
      dataURIString d.mimeType d.data ∧
    (ImageEdit.clickHandler (some file) v false (.ok parts) s).editedVisible =
      true ∧
    (ImageEdit.clickHandler (some file) v false (.ok parts) s).editedPlaceholderVisible =
      false ∧
    (ImageEdit.clickHandler (some file) v false (.ok parts) s).downloadVisible =
      false ∧
    (ImageEdit.clickHandler (some file) v false (.ok parts) s).downloadHref =
      s.downloadHref ∧
    (ImageEdit.clickHandler (some file) v false (.ok parts) s).pendingWatermark =
      s.pendingWatermark ∧
    (ImageEdit.clickHandler (some file) v false (.ok parts) s).errorVisible =
      false ∧
    (ImageEdit.clickHandler (some file) v false (.ok parts) s).loaderVisible =
      false := by
  refine ⟨?_, ?_, ?_, ?_, ?_, ?_, ?_, ?_⟩ <;>
    simp [ImageEdit.clickHandler, hp, ImageEdit.updateUI,
      ImageEdit.updateButtonState]

/-- Witness for C10 at a concrete one-part response. -/
theorem claim_C10_witness :
    (ImageEdit.clickHandler (some ⟨"photo.png", "image/png"⟩) "red dress" false
        (.ok (some [⟨some ⟨"QUJD", "image/png"⟩, none⟩]))
        ImageEdit.initialState).editedSrc =
      dataURIString "image/png" "QUJD" ∧
    (ImageEdit.clickHandler (some ⟨"photo.png", "image/png"⟩) "red dress" false
        (.ok (some [⟨some ⟨"QUJD", "image/png"⟩, none⟩]))
        ImageEdit.initialState).editedVisible = true ∧
    (ImageEdit.clickHandler (some ⟨"photo.png", "image/png"⟩) "red dress" false
        (.ok (some [⟨some ⟨"QUJD", "image/png"⟩, none⟩]))
        ImageEdit.initialState).editedPlaceholderVisible = false ∧
    (ImageEdit.clickHandler (some ⟨"photo.png", "image/png"⟩) "red dress" false
        (.ok (some [⟨some ⟨"QUJD", "image/png"⟩, none⟩]))
        ImageEdit.initialState).downloadVisible = false ∧
    (ImageEdit.clickHandler (some ⟨"photo.png", "image/png"⟩) "red dress" false
        (.ok (some [⟨some ⟨"QUJD", "image/png"⟩, none⟩]))
        ImageEdit.initialState).downloadHref = ImageEdit.initialState.downloadHref ∧
    (ImageEdit.clickHandler (some ⟨"photo.png", "image/png"⟩) "red dress" false
        (.ok (some [⟨some ⟨"QUJD", "image/png"⟩, none⟩]))
        ImageEdit.initialState).pendingWatermark =
      ImageEdit.initialState.pendingWatermark ∧
    (ImageEdit.clickHandler (some ⟨"photo.png", "image/png"⟩) "red dress" false
        (.ok (some [⟨some ⟨"QUJD", "image/png"⟩, none⟩]))
        ImageEdit.initialState).errorVisible = false ∧
    (ImageEdit.clickHandler (some ⟨"photo.png", "image/png"⟩) "red dress" false
        (.ok (some [⟨some ⟨"QUJD", "image/png"⟩, none⟩]))
        ImageEdit.initialState).loaderVisible = false :=
  claim_C10_canvas_fallback ⟨"photo.png", "image/png"⟩ "red dress"
    (some [⟨some ⟨"QUJD", "image/png"⟩, none⟩]) ⟨"QUJD", "image/png"⟩ rfl
    ImageEdit.initialState
